import Mathlib

/-!
Shallow embedding of `RotatingMagnetFilamentMonitor.cpp` (RepRapFirmware
filament monitor for the Duet3D rotating magnet sensor).

Floating-point accumulators of the source are modelled as exact rationals;
the 16-bit sensor words and 32-bit millisecond timestamps are modelled as
naturals with explicit reduction modulo 2^16 / 2^32 where the source relies
on unsigned wraparound.
-/

namespace RotatingMagnet

/-- Subtraction of 16-bit unsigned values with wraparound, as the source's
`val - sensorValue` on `uint16_t` operands. -/
def u16sub (a b : Nat) : Nat :=
  (a % 2 ^ 16 + 2 ^ 16 - b % 2 ^ 16) % 2 ^ 16

/-- Subtraction of 32-bit unsigned values with wraparound, as the source's
`millis() - lastMeasurementTime` and `lastSyncTime - ...PrintingSince()`. -/
def u32sub (a b : Nat) : Nat :=
  (a % 2 ^ 32 + 2 ^ 32 - b % 2 ^ 32) % 2 ^ 32

/-- Reinterpret a 32-bit unsigned value as a signed `int32_t`, as the
source's cast in `(int32_t)(lastSyncTime - ...)`. -/
def toInt32 (n : Nat) : Int :=
  if n % 2 ^ 32 < 2 ^ 31 then (n % 2 ^ 32 : Int) else (n % 2 ^ 32 : Int) - 2 ^ 32

/-- `SyncDelayMillis` from the source: required delay in ms after a
retract/reprime move before a measurement is accepted. -/
def SyncDelayMillis : Int := 10

/-- 10-bit angle field mask (the source's `TypeMagnetAngleMask`; value from
the missing header, forced by the comment "angle change in range 0..1023"). -/
def TypeMagnetAngleMask : Nat := 0x3FF

/-- Modelled from the spec: the version-1 error-word pattern
`1000 0000 00000000` (`TypeMagnetV1ErrorMask` of the missing header). -/
def TypeMagnetV1ErrorMask : Nat := 0x8000

/-- Modelled from the spec: the version-1 switch-open bit `0S00 ...`
(`TypeMagnetV1SwitchOpenMask` of the missing header). -/
def TypeMagnetV1SwitchOpenMask : Nat := 0x4000

/-- Modelled from the spec: the version-2 switch-open bit `P00S 10..`
(`TypeMagnetV2SwitchOpenMask` of the missing header). -/
def TypeMagnetV2SwitchOpenMask : Nat := 0x1000

/-- Modelled from the spec: the version-2 message-type field, bits 14,13,11,10
(excluding the switch bit 12), per the word-layout comments in
`HandleIncomingData` (`TypeMagnetV2MessageTypeMask` of the missing header). -/
def TypeMagnetV2MessageTypeMask : Nat := 0x6C00

/-- Modelled from the spec: data word `P00S 10pp pppppppp` under the
message-type mask (`TypeMagnetV2MessageTypePosition`). -/
def TypeMagnetV2MessageTypePosition : Nat := 0x0800

/-- Modelled from the spec: error word `P010 0000 0000eeee` under the
message-type mask (`TypeMagnetV2MessageTypeError`). -/
def TypeMagnetV2MessageTypeError : Nat := 0x2000

/-- Modelled from the spec: info word `P110 ....` under the message-type mask
(`TypeMagnetV2MessageTypeInfo`). -/
def TypeMagnetV2MessageTypeInfo : Nat := 0x6000

/-- Modelled from the spec: the 2-bit info-subtype field, bits 9,8
(`TypeMagnetV2InfoTypeMask` of the missing header). -/
def TypeMagnetV2InfoTypeMask : Nat := 0x0300

/-- Modelled from the spec: version word `P110 0000 vvvvvvvv`
(`TypeMagnetV2InfoTypeVersion`). -/
def TypeMagnetV2InfoTypeVersion : Nat := 0x0000

/-- Modelled from the spec: magnitude word `P110 0010 mmmmmmmm`
(`TypeMagnetV3InfoTypeMagnitude`). -/
def TypeMagnetV3InfoTypeMagnitude : Nat := 0x0200

/-- Modelled from the spec: AGC word `P110 0011 aaaaaaaa`
(`TypeMagnetV3InfoTypeAgc`). -/
def TypeMagnetV3InfoTypeAgc : Nat := 0x0300

/-- The three states of the calibration/comparison state machine
(`MagneticMonitorState` in the source). -/
inductive MagneticMonitorState where
  | idle
  | calibrating
  | comparing
deriving DecidableEq, Repr

/-- The status values returned by `Check` and `Clear`
(`FilamentSensorStatus` in the source). -/
inductive FilamentSensorStatus where
  | ok
  | noFilament
  | tooLittleMovement
  | tooMuchMovement
  | sensorError
  | noDataReceived
deriving DecidableEq, Repr

/-- The mutable state of one `RotatingMagnetFilamentMonitor` instance:
sensor/decoder state, the measurement accumulators, the pending start-bit
candidate, the calibration record and the configuration. -/
structure MonitorState where
  dataReceived : Bool := false
  sensorValue : Nat := 0
  parityErrorCount : Nat := 0
  framingErrorCount : Nat := 0
  overrunErrorCount : Nat := 0
  polarityErrorCount : Nat := 0
  overdueCount : Nat := 0
  lastMeasurementTime : Nat := 0
  lastErrorCode : Nat := 0
  version : Nat := 1
  magnitude : Nat := 0
  agc : Nat := 0
  backwards : Bool := false
  sensorError : Bool := false
  switchOpenMask : Nat := 0
  -- measurement window accumulators
  extrusionCommandedThisSegment : ℚ := 0
  extrusionCommandedSinceLastSync : ℚ := 0
  movementMeasuredThisSegment : ℚ := 0
  movementMeasuredSinceLastSync : ℚ := 0
  magneticMonitorState : MagneticMonitorState := .idle
  haveStartBitData : Bool := false
  synced : Bool := false
  -- pending start-bit candidate
  extrusionCommandedAtCandidateStartBit : ℚ := 0
  wasPrintingAtStartBit : Bool := false
  candidateStartBitTime : Nat := 0
  lastSyncTime : Nat := 0
  -- calibration record
  totalExtrusionCommanded : ℚ := 0
  totalMovementMeasured : ℚ := 0
  minMovementRatio : ℚ := 0
  maxMovementRatio : ℚ := 0
  -- configuration
  mmPerRev : ℚ := 28.8
  minMovementAllowed : ℚ := 0.6
  maxMovementAllowed : ℚ := 1.6
  minimumExtrusionCheckLength : ℚ := 3
  comparisonEnabled : Bool := false
  checkNonPrintingMoves : Bool := false
deriving DecidableEq, Repr

/-- One item polled from the receive buffer: a completed 16-bit word, or a
framing-error signal (the source's `PollResult::complete` / `PollResult::error`). -/
inductive PollItem where
  | word (val : Nat)
  | framingError
deriving DecidableEq, Repr

/-- Environment read during `HandleIncomingData`: the millisecond clock and
the motion authority's `ExtruderPrintingSince()` timestamp. -/
structure PollEnv where
  now : Nat := 0
  printingSince : Nat := 0
deriving DecidableEq, Repr

/-- Environment read during `Check`: the clock, the printing-since timestamp,
the drained receive buffer contents, and the receive-buffer predicates
`IsWaitingForStartBit()` and `IsReceiving()`. -/
structure CheckEnv where
  now : Nat := 0
  printingSince : Nat := 0
  items : List PollItem := []
  isWaitingForStartBit : Bool := false
  isReceiving : Bool := false
deriving DecidableEq, Repr

/-- `Reset()` from the source: clears the accumulators, the state machine,
the pending candidate and the synced flag. -/
def Reset (s : MonitorState) : MonitorState :=
  { s with extrusionCommandedThisSegment := 0, extrusionCommandedSinceLastSync := 0,
           movementMeasuredThisSegment := 0, movementMeasuredSinceLastSync := 0,
           magneticMonitorState := .idle, haveStartBitData := false, synced := false }

/-- `Init()` from the source: resets the sensor/decoder state to defaults
(version back to 1, no data received, no error) and then calls `Reset`. -/
def Init (s : MonitorState) : MonitorState :=
  Reset { s with dataReceived := false, sensorValue := 0,
                 parityErrorCount := 0, framingErrorCount := 0,
                 overrunErrorCount := 0, polarityErrorCount := 0, overdueCount := 0,
                 lastMeasurementTime := 0, lastErrorCode := 0, version := 1,
                 magnitude := 0, agc := 0, backwards := false, sensorError := false }

/-- The XOR parity fold of `HandleIncomingData`: `data8 = (val>>8)^val`
folded down by 4, 2, 1; the source then tests `data8 & 1`. -/
def parityFold (val : Nat) : Nat :=
  let d0 := ((val >>> 8) ^^^ val) % 2 ^ 8
  let d1 := d0 ^^^ (d0 >>> 4)
  let d2 := d1 ^^^ (d1 >>> 2)
  d2 ^^^ (d2 >>> 1)

/-- The word-classification part of `HandleIncomingData` on one completed
word: returns `receivedPositionReport` together with the updated state
(version negotiation, error words, info words, parity rejection). -/
def handleCompletedWord (s : MonitorState) (val : Nat) : Bool × MonitorState :=
  if s.version = 1 then
    if parityFold val &&& 1 = 0 ∧ val &&& 0x7F00 = 0x6000 ∧ val &&& 0x00FF ≥ 2 then
      (false, { s with version := val &&& 0x00FF,
                       switchOpenMask := if s.switchOpenMask ≠ 0 then
                           TypeMagnetV2SwitchOpenMask else s.switchOpenMask })
    else if val = TypeMagnetV1ErrorMask then
      (false, { s with sensorError := true, lastErrorCode := 0 })
    else if val &&& 0xBC00 = 0 then
      (true, { s with dataReceived := true, sensorError := false })
    else
      (false, s)
  else if parityFold val &&& 1 ≠ 0 then
    (false, { s with parityErrorCount := s.parityErrorCount + 1 })
  else if val &&& TypeMagnetV2MessageTypeMask = TypeMagnetV2MessageTypePosition then
    (true, { s with dataReceived := true, sensorError := false })
  else if val &&& TypeMagnetV2MessageTypeMask = TypeMagnetV2MessageTypeError then
    (false, { s with lastErrorCode := val &&& 0x00FF,
                     sensorError := decide (val &&& 0x00FF ≠ 0) })
  else if val &&& TypeMagnetV2MessageTypeMask = TypeMagnetV2MessageTypeInfo then
    if val &&& TypeMagnetV2InfoTypeMask = TypeMagnetV2InfoTypeVersion then
      (false, { s with version := val &&& 0x00FF })
    else if val &&& TypeMagnetV2InfoTypeMask = TypeMagnetV3InfoTypeMagnitude then
      (false, { s with magnitude := val &&& 0x00FF })
    else if val &&& TypeMagnetV2InfoTypeMask = TypeMagnetV3InfoTypeAgc then
      (false, { s with agc := val &&& 0x00FF })
    else
      (false, s)
  else
    (false, s)

/-- The decoder classifies `val` as a valid position report in state `s`. -/
def isPositionReport (s : MonitorState) (val : Nat) : Prop :=
  (handleCompletedWord s val).1 = true

instance (s : MonitorState) (val : Nat) : Decidable (isPositionReport s val) := by
  unfold isPositionReport; infer_instance

/-- The source's `angleChange`: `(val - sensorValue) & TypeMagnetAngleMask`. -/
def angleChangeOf (sensorValue val : Nat) : Nat :=
  u16sub val sensorValue &&& TypeMagnetAngleMask

/-- The source's `movement`: the unsigned delta mapped to a signed movement,
`angleChange` if `≤ 512`, else `angleChange - 1024`. -/
def movementOf (sensorValue val : Nat) : Int :=
  if angleChangeOf sensorValue val ≤ 512 then (angleChangeOf sensorValue val : Int)
  else (angleChangeOf sensorValue val : Int) - 1024

/-- The sync trust test, inlined at source lines 315-319: the accumulated
window is transferred when a fence is established (`synced`) and either all
moves are checked or the move at the previous start bit was a printing move
that began at least `SyncDelayMillis` before that start bit. -/
def trustTest (env : PollEnv) (s : MonitorState) : Prop :=
  s.synced = true ∧
    (s.checkNonPrintingMoves = true ∨
     (s.wasPrintingAtStartBit = true ∧
      toInt32 (u32sub s.lastSyncTime env.printingSince) ≥ SyncDelayMillis))

instance (env : PollEnv) (s : MonitorState) : Decidable (trustTest env s) := by
  unfold trustTest; infer_instance

/-- The position-report part of `HandleIncomingData` (source lines 304-331):
accumulate the signed movement, store the word and the measurement time, and
if a start-bit candidate is pending run the sync-transfer logic. -/
def handlePositionReport (env : PollEnv) (s : MonitorState) (val : Nat) : MonitorState :=
  let movement := movementOf s.sensorValue val
  let s1 := { s with
      movementMeasuredSinceLastSync := s.movementMeasuredSinceLastSync + (movement : ℚ) / 1024,
      sensorValue := val,
      lastMeasurementTime := env.now }
  if s1.haveStartBitData then
    let s2 :=
      if trustTest env s1 then
        { s1 with
            extrusionCommandedThisSegment :=
              s1.extrusionCommandedThisSegment + s1.extrusionCommandedAtCandidateStartBit,
            movementMeasuredThisSegment :=
              s1.movementMeasuredThisSegment + s1.movementMeasuredSinceLastSync }
      else s1
    { s2 with
        lastSyncTime := s2.candidateStartBitTime,
        extrusionCommandedSinceLastSync :=
          s2.extrusionCommandedSinceLastSync - s2.extrusionCommandedAtCandidateStartBit,
        movementMeasuredSinceLastSync := 0,
        synced := s2.checkNonPrintingMoves || s2.wasPrintingAtStartBit }
  else s1

/-- One iteration of the `HandleIncomingData` polling loop: classify the
polled item, process a position report if one was received, and clear the
pending start-bit candidate at the end of the iteration. -/
def handleOneItem (env : PollEnv) (s : MonitorState) (it : PollItem) : MonitorState :=
  let s' :=
    match it with
    | .framingError => { s with framingErrorCount := s.framingErrorCount + 1 }
    | .word val =>
        let r := handleCompletedWord s val
        if r.1 then handlePositionReport env r.2 val else r.2
  { s' with haveStartBitData := false }

/-- `HandleIncomingData()` from the source: drain the receive buffer,
processing every completed word or framing-error signal in order. -/
def HandleIncomingData (env : PollEnv) (s : MonitorState) (items : List PollItem) :
    MonitorState :=
  items.foldl (handleOneItem env) s

/-- `CheckFilament()` from the source: the three-state calibration and
comparison machine, returning a status and the updated state. -/
def CheckFilament (s : MonitorState) (amountCommanded amountMeasured : ℚ)
    (overdue : Bool) : FilamentSensorStatus × MonitorState :=
  if s.dataReceived = false then
    (.noDataReceived, s)
  else
    match s.magneticMonitorState with
    | .idle =>
        (.ok, { s with magneticMonitorState := .calibrating,
                       totalExtrusionCommanded := amountCommanded,
                       totalMovementMeasured := amountMeasured })
    | .calibrating =>
        let te := s.totalExtrusionCommanded + amountCommanded
        let tm := s.totalMovementMeasured + amountMeasured
        if te ≥ 10 then
          let bw : Bool := decide (tm < 0)
          let tm2 := if bw then -tm else tm
          let ratio := tm2 / te
          let ret :=
            if s.comparisonEnabled then
              if ratio * s.mmPerRev < s.minMovementAllowed then
                FilamentSensorStatus.tooLittleMovement
              else if ratio * s.mmPerRev > s.maxMovementAllowed then
                FilamentSensorStatus.tooMuchMovement
              else .ok
            else .ok
          (ret, { s with totalExtrusionCommanded := te, totalMovementMeasured := tm2,
                         backwards := bw, minMovementRatio := ratio,
                         maxMovementRatio := ratio,
                         magneticMonitorState := .comparing })
        else
          (.ok, { s with totalExtrusionCommanded := te, totalMovementMeasured := tm })
    | .comparing =>
        let te := s.totalExtrusionCommanded + amountCommanded
        let am := if s.backwards then -amountMeasured else amountMeasured
        let tm := s.totalMovementMeasured + am
        let ratio := am / amountCommanded
        let maxR := if ratio > s.maxMovementRatio then ratio else s.maxMovementRatio
        let minR := if ratio > s.maxMovementRatio then s.minMovementRatio
                    else if ratio < s.minMovementRatio then ratio
                    else s.minMovementRatio
        let ret :=
          if s.comparisonEnabled then
            if ratio * s.mmPerRev < s.minMovementAllowed then
              FilamentSensorStatus.tooLittleMovement
            else if ratio * s.mmPerRev > s.maxMovementAllowed then
              FilamentSensorStatus.tooMuchMovement
            else .ok
          else .ok
        (ret, { s with totalExtrusionCommanded := te, totalMovementMeasured := tm,
                       maxMovementRatio := maxR, minMovementRatio := minR })

/-- `Check()` from the source: add the commanded extrusion, capture a
start-bit candidate if this call came from the ISR, drain the receive
buffer, then decide whether to run a comparison and return the status. -/
def Check (env : CheckEnv) (s : MonitorState) (isPrinting fromIsr : Bool)
    (isrMillis : Nat) (filamentConsumed : ℚ) : FilamentSensorStatus × MonitorState :=
  let s1 := { s with extrusionCommandedSinceLastSync :=
                s.extrusionCommandedSinceLastSync + filamentConsumed }
  let s2 :=
    if fromIsr ∧ env.isWaitingForStartBit then
      { s1 with
          extrusionCommandedAtCandidateStartBit := s1.extrusionCommandedSinceLastSync,
          wasPrintingAtStartBit := isPrinting,
          candidateStartBitTime := isrMillis,
          haveStartBitData := true }
    else s1
  let s3 := HandleIncomingData ⟨env.now, env.printingSince⟩ s2 env.items
  let rs :=
    if s3.sensorError then
      (FilamentSensorStatus.sensorError, s3)
    else if s3.sensorValue &&& s3.switchOpenMask ≠ 0 then
      (FilamentSensorStatus.noFilament, s3)
    else if s3.extrusionCommandedThisSegment ≥ s3.minimumExtrusionCheckLength then
      let r := CheckFilament s3 s3.extrusionCommandedThisSegment
                 s3.movementMeasuredThisSegment false
      (r.1, { r.2 with extrusionCommandedThisSegment := 0,
                       movementMeasuredThisSegment := 0 })
    else if s3.extrusionCommandedThisSegment + s3.extrusionCommandedSinceLastSync ≥
              s3.minimumExtrusionCheckLength * 3 ∧
            u32sub env.now s3.lastMeasurementTime > 500 ∧
            env.isReceiving = false then
      let r := CheckFilament s3
                 (s3.extrusionCommandedThisSegment + s3.extrusionCommandedSinceLastSync)
                 (s3.movementMeasuredThisSegment + s3.movementMeasuredSinceLastSync) true
      (r.1, { r.2 with extrusionCommandedThisSegment := 0,
                       extrusionCommandedSinceLastSync := 0,
                       movementMeasuredThisSegment := 0,
                       movementMeasuredSinceLastSync := 0 })
    else
      (FilamentSensorStatus.ok, s3)
  (if s.comparisonEnabled then rs.1 else .ok, rs.2)

/-- `Clear()` from the source: reset the transient state, drain the receive
buffer, and report only the override conditions. -/
def Clear (env : CheckEnv) (s : MonitorState) : FilamentSensorStatus × MonitorState :=
  let s1 := HandleIncomingData ⟨env.now, env.printingSince⟩ (Reset s) env.items
  (if s1.comparisonEnabled = false then .ok
   else if s1.dataReceived = false then .noDataReceived
   else if s1.sensorError then .sensorError
   else if s1.sensorValue &&& s1.switchOpenMask ≠ 0 then .noFilament
   else .ok, s1)

/-- A concrete state for exercising the movement decoding: previous stored
angle word 100. -/
def w2State : MonitorState := { sensorValue := 100 }

/-- A concrete version-1 state holding a latched sensor error with a stored
error code. -/
def w9State : MonitorState := { version := 1, sensorError := true, lastErrorCode := 7 }

/-- A concrete version-1 state with a pending start-bit candidate, a fence
established, check-all-moves configured, 5 units of extrusion commanded
since the last sync and 3 of them captured at the candidate start bit. -/
def c8State : MonitorState :=
  { version := 1, sensorValue := 0, haveStartBitData := true, synced := true,
    checkNonPrintingMoves := true,
    extrusionCommandedSinceLastSync := 5,
    extrusionCommandedAtCandidateStartBit := 3 }

/-- A concrete calibrating state: 6 units of lifetime commanded extrusion and
-1/2 revolutions of lifetime measured movement. -/
def c4State : MonitorState :=
  { dataReceived := true, magneticMonitorState := .calibrating,
    totalExtrusionCommanded := 6, totalMovementMeasured := -1/2 }

/-- Modelled from the spec: the comparing-state fault decision as claim C6
reads it — scale the window ratio by the *measured* sensitivity (lifetime
commanded extrusion divided by lifetime measured movement) before comparing
it against the configured minimum and maximum allowed fractions. -/
def comparingFaultMeasuredSensitivity (s : MonitorState)
    (amountCommanded amountMeasured : ℚ) : FilamentSensorStatus :=
  let am := if s.backwards then -amountMeasured else amountMeasured
  let ratio := am / amountCommanded
  let scaled := ratio * (s.totalExtrusionCommanded / s.totalMovementMeasured)
  if scaled < s.minMovementAllowed then .tooLittleMovement
  else if scaled > s.maxMovementAllowed then .tooMuchMovement
  else .ok

/-- A concrete state in which an error word was decoded (sensor error
latched) but no position word ever arrived, with enough pending commanded
extrusion for an overdue forced comparison. -/
def c1State : MonitorState :=
  { dataReceived := false, sensorError := true, version := 1,
    comparisonEnabled := true, switchOpenMask := 0x4000,
    minimumExtrusionCheckLength := 3,
    extrusionCommandedSinceLastSync := 9, lastMeasurementTime := 0 }

/-- A check environment 1000 ms after the last measurement, with an empty
receive buffer and no reception in progress. -/
def c1Env : CheckEnv := { now := 1000 }

/-- A concrete state meeting every overdue-sync condition (pending commanded
extrusion 1 + 9 ≥ 3 × 3) but holding an active sensor error. -/
def c5State : MonitorState :=
  { dataReceived := true, sensorError := true, version := 1,
    comparisonEnabled := true, minimumExtrusionCheckLength := 3,
    extrusionCommandedThisSegment := 1, extrusionCommandedSinceLastSync := 9,
    lastMeasurementTime := 0 }

/-- `c5State` with the sensor error cleared, so the overdue branch is
reachable. -/
def w5State : MonitorState :=
  { dataReceived := true, sensorError := false, version := 1,
    comparisonEnabled := true, minimumExtrusionCheckLength := 3,
    extrusionCommandedThisSegment := 1, extrusionCommandedSinceLastSync := 9,
    lastMeasurementTime := 0 }

/-- A concrete comparing-state monitor whose measured sensitivity (100/2 =
50) differs from the configured nominal sensitivity (20). -/
def c6State : MonitorState :=
  { dataReceived := true, comparisonEnabled := true,
    magneticMonitorState := .comparing, backwards := false,
    mmPerRev := 20, minMovementAllowed := 3/5, maxMovementAllowed := 3/2,
    totalExtrusionCommanded := 100, totalMovementMeasured := 2,
    minMovementRatio := 1/50, maxMovementRatio := 1/50 }

/-- A concrete state whose negotiated protocol version is 5. -/
def c7State : MonitorState := { version := 5 }

/-- Bit-masking with the 10-bit angle mask is reduction modulo 1024. -/
theorem and_1023_eq_mod (n : Nat) : n &&& 1023 = n % 1024 := by
  have h := Nat.and_pow_two_sub_one_eq_mod n 10
  norm_num at h
  exact h

/-- A word classified as a position report updates the state exactly by
setting `dataReceived` and clearing `sensorError`. -/
theorem handleCompletedWord_pos (s : MonitorState) (val : Nat)
    (h : (handleCompletedWord s val).1 = true) :
    (handleCompletedWord s val).2 = { s with dataReceived := true, sensorError := false } := by
  unfold handleCompletedWord at h ⊢
  split_ifs at h ⊢ <;> simp_all

/-- Claim C10: every item polled by the `HandleIncomingData` loop — a
completed word of any kind or a framing-error signal — leaves the pending
start-bit candidate flag false at the end of its iteration, so after
draining any nonempty receive buffer the flag is false. -/
theorem C10_startBit_always_cleared (env : PollEnv) (s : MonitorState)
    (items : List PollItem) (it : PollItem) :
    (HandleIncomingData env s (items ++ [it])).haveStartBitData = false := by
  cases it <;> simp [HandleIncomingData, List.foldl_append, handleOneItem]

/-- Claim C2: a decoded position word subtracts the previous angle from the
new one within the 10-bit field, maps the unsigned delta `d` to `d` when
`d ≤ 512` and to `d - 1024` otherwise — so the signed movement always lies
in `[-511, 512]` — and adds `movement/1024` revolutions to the
since-last-sync movement accumulator. -/
theorem C2_movement_decoding (env : PollEnv) (s : MonitorState) (val : Nat)
    (hv : val < 2 ^ 16) (hs : s.sensorValue < 2 ^ 16) (hb : s.haveStartBitData = false) :
    movementOf s.sensorValue val =
      (if ((val &&& TypeMagnetAngleMask) + 1024 - (s.sensorValue &&& TypeMagnetAngleMask)) % 1024
            ≤ 512 then
        ((((val &&& TypeMagnetAngleMask) + 1024 - (s.sensorValue &&& TypeMagnetAngleMask)) % 1024 :
            Nat) : Int)
      else ((((val &&& TypeMagnetAngleMask) + 1024 - (s.sensorValue &&& TypeMagnetAngleMask)) %
            1024 : Nat) : Int) - 1024) ∧
    (-511 ≤ movementOf s.sensorValue val ∧ movementOf s.sensorValue val ≤ 512) ∧
    (handlePositionReport env s val).movementMeasuredSinceLastSync =
      s.movementMeasuredSinceLastSync + (movementOf s.sensorValue val : ℚ) / 1024 := by
  have hd : angleChangeOf s.sensorValue val =
      ((val &&& TypeMagnetAngleMask) + 1024 - (s.sensorValue &&& TypeMagnetAngleMask)) % 1024 := by
    unfold angleChangeOf u16sub
    simp only [TypeMagnetAngleMask, and_1023_eq_mod]
    norm_num
    omega
  refine ⟨?_, ?_, ?_⟩
  · rw [movementOf, hd]
  · unfold movementOf
    have hlt : angleChangeOf s.sensorValue val < 1024 := by
      rw [hd]; omega
    split <;> omega
  · unfold handlePositionReport
    simp [hb]

/-- Claim C9: every word the decoder classifies as a valid position report
clears the sensor-error flag (in both version-1 and version-2+ decoding)
while leaving the stored last error code unchanged. -/
theorem C9_position_clears_sensor_error (env : PollEnv) (s : MonitorState) (val : Nat)
    (h : isPositionReport s val) :
    (handleOneItem env s (.word val)).sensorError = false ∧
    (handleOneItem env s (.word val)).lastErrorCode = s.lastErrorCode := by
  have h' : (handleCompletedWord s val).1 = true := h
  have h2 := handleCompletedWord_pos s val h'
  unfold handleOneItem
  simp only [h', h2, if_true]
  unfold handlePositionReport
  dsimp only
  split_ifs <;> simp

/-- The trust test ignores the fields updated by the movement-accumulation
step of a position report. -/
theorem trustTest_update (env : PollEnv) (s : MonitorState) (q : ℚ) (v t : Nat) :
    trustTest env { s with movementMeasuredSinceLastSync := q, sensorValue := v,
                           lastMeasurementTime := t } ↔ trustTest env s := by
  simp [trustTest]

/-- A position report never changes the negotiated protocol version. -/
theorem handlePositionReport_version (env : PollEnv) (s : MonitorState) (val : Nat) :
    (handlePositionReport env s val).version = s.version := by
  unfold handlePositionReport
  dsimp only
  split_ifs <;> simp

/-- Claim C9 witness: the latched sensor error of `w9State` is cleared by the
version-1 position word `0`, and error code 7 stays stored. -/
theorem C9_witness :
    (handleOneItem {} w9State (.word 0)).sensorError = false ∧
    (handleOneItem {} w9State (.word 0)).lastErrorCode = w9State.lastErrorCode :=
  C9_position_clears_sensor_error {} w9State 0 (by decide)

/-- Claim C2 witness: decoding position word 1000 against stored angle 100. -/
theorem C2_movement_decoding_witness :
    movementOf w2State.sensorValue 1000 =
      (if ((1000 &&& TypeMagnetAngleMask) + 1024 - (w2State.sensorValue &&& TypeMagnetAngleMask)) %
            1024 ≤ 512 then
        ((((1000 &&& TypeMagnetAngleMask) + 1024 - (w2State.sensorValue &&& TypeMagnetAngleMask)) %
            1024 : Nat) : Int)
      else ((((1000 &&& TypeMagnetAngleMask) + 1024 - (w2State.sensorValue &&& TypeMagnetAngleMask))
            % 1024 : Nat) : Int) - 1024) ∧
    (-511 ≤ movementOf w2State.sensorValue 1000 ∧ movementOf w2State.sensorValue 1000 ≤ 512) ∧
    (handlePositionReport {} w2State 1000).movementMeasuredSinceLastSync =
      w2State.movementMeasuredSinceLastSync + (movementOf w2State.sensorValue 1000 : ℚ) / 1024 :=
  C2_movement_decoding {} w2State 1000 (by decide) (by decide) rfl

/-- Claim C3: when a position report completes while a start-bit candidate is
pending, the window transfers into the this-segment accumulators exactly when
`synced` is true and the trust test passes (check-all-moves configured, or a
printing move at least `SyncDelayMillis` ms before the previous start bit);
in all cases the fence timestamp advances to the candidate's timestamp, the
extrusion captured at the candidate is subtracted from the since-last-sync
extrusion accumulator, the since-last-sync movement accumulator becomes zero,
and `synced` becomes true exactly when check-all-moves is configured or the
candidate's printing flag was true. -/
theorem C3_sync_fence (env : PollEnv) (s : MonitorState) (val : Nat)
    (hp : isPositionReport s val) (hb : s.haveStartBitData = true) :
    (trustTest env s →
       (handleOneItem env s (.word val)).extrusionCommandedThisSegment =
         s.extrusionCommandedThisSegment + s.extrusionCommandedAtCandidateStartBit ∧
       (handleOneItem env s (.word val)).movementMeasuredThisSegment =
         s.movementMeasuredThisSegment +
           (s.movementMeasuredSinceLastSync + (movementOf s.sensorValue val : ℚ) / 1024)) ∧
    (¬ trustTest env s →
       (handleOneItem env s (.word val)).extrusionCommandedThisSegment =
         s.extrusionCommandedThisSegment ∧
       (handleOneItem env s (.word val)).movementMeasuredThisSegment =
         s.movementMeasuredThisSegment) ∧
    (handleOneItem env s (.word val)).lastSyncTime = s.candidateStartBitTime ∧
    (handleOneItem env s (.word val)).extrusionCommandedSinceLastSync =
      s.extrusionCommandedSinceLastSync - s.extrusionCommandedAtCandidateStartBit ∧
    (handleOneItem env s (.word val)).movementMeasuredSinceLastSync = 0 ∧
    ((handleOneItem env s (.word val)).synced = true ↔
       (s.checkNonPrintingMoves = true ∨ s.wasPrintingAtStartBit = true)) := by
  have h' : (handleCompletedWord s val).1 = true := hp
  have h2 := handleCompletedWord_pos s val h'
  unfold handleOneItem
  simp only [h', h2, if_true]
  unfold handlePositionReport
  dsimp only
  rw [if_pos hb]
  split_ifs with htr
  · have ht : trustTest env s := by simpa [trustTest] using htr
    refine ⟨fun _ => ?_, fun hn => absurd ht hn, ?_, ?_, ?_, ?_⟩ <;> simp
  · have ht : ¬ trustTest env s := fun h => htr (by simpa [trustTest] using h)
    refine ⟨fun hc => absurd hc ht, fun _ => ?_, ?_, ?_, ?_, ?_⟩ <;> simp

/-- Claim C3 witness: a position word completing at `c8State` transfers the
window (trust passes via check-all-moves), advances the fence, leaves the
residual 5 - 3 in the extrusion accumulator and zeroes the movement one. -/
theorem C3_sync_fence_witness :
    (trustTest {} c8State →
       (handleOneItem {} c8State (.word 0)).extrusionCommandedThisSegment =
         c8State.extrusionCommandedThisSegment + c8State.extrusionCommandedAtCandidateStartBit ∧
       (handleOneItem {} c8State (.word 0)).movementMeasuredThisSegment =
         c8State.movementMeasuredThisSegment +
           (c8State.movementMeasuredSinceLastSync +
             (movementOf c8State.sensorValue 0 : ℚ) / 1024)) ∧
    (¬ trustTest {} c8State →
       (handleOneItem {} c8State (.word 0)).extrusionCommandedThisSegment =
         c8State.extrusionCommandedThisSegment ∧
       (handleOneItem {} c8State (.word 0)).movementMeasuredThisSegment =
         c8State.movementMeasuredThisSegment) ∧
    (handleOneItem {} c8State (.word 0)).lastSyncTime = c8State.candidateStartBitTime ∧
    (handleOneItem {} c8State (.word 0)).extrusionCommandedSinceLastSync =
      c8State.extrusionCommandedSinceLastSync - c8State.extrusionCommandedAtCandidateStartBit ∧
    (handleOneItem {} c8State (.word 0)).movementMeasuredSinceLastSync = 0 ∧
    ((handleOneItem {} c8State (.word 0)).synced = true ↔
       (c8State.checkNonPrintingMoves = true ∨ c8State.wasPrintingAtStartBit = true)) :=
  C3_sync_fence {} c8State 0 (by decide) rfl

/-- Claim C4: the state machine moves from idle to calibrating on the first
comparison request; it moves from calibrating to comparing exactly when the
lifetime commanded extrusion reaches 10, at which point `backwards` is set to
the sign of the lifetime measured movement, the lifetime movement is
normalized to positive, and the measured ratio seeds both the running minimum
and maximum ratio; in the comparing state `backwards` is never written
again. -/
theorem C4_state_machine (s : MonitorState) (a m : ℚ) (o : Bool)
    (hd : s.dataReceived = true) :
    (s.magneticMonitorState = .idle →
       (CheckFilament s a m o).2.magneticMonitorState = .calibrating) ∧
    (s.magneticMonitorState = .calibrating → s.totalExtrusionCommanded + a ≥ 10 →
       (CheckFilament s a m o).2.magneticMonitorState = .comparing ∧
       (CheckFilament s a m o).2.backwards = decide (s.totalMovementMeasured + m < 0) ∧
       (CheckFilament s a m o).2.totalMovementMeasured =
         (if s.totalMovementMeasured + m < 0 then -(s.totalMovementMeasured + m)
          else s.totalMovementMeasured + m) ∧
       (CheckFilament s a m o).2.minMovementRatio =
         (CheckFilament s a m o).2.totalMovementMeasured / (s.totalExtrusionCommanded + a) ∧
       (CheckFilament s a m o).2.maxMovementRatio = (CheckFilament s a m o).2.minMovementRatio) ∧
    (s.magneticMonitorState = .calibrating → s.totalExtrusionCommanded + a < 10 →
       (CheckFilament s a m o).2.magneticMonitorState = .calibrating) ∧
    (s.magneticMonitorState = .comparing →
       (CheckFilament s a m o).2.backwards = s.backwards) := by
  unfold CheckFilament
  simp only [hd]
  refine ⟨?_, ?_, ?_, ?_⟩
  · intro h1; rw [h1]; simp
  · intro h1 h10; rw [h1]; dsimp only
    rw [if_pos h10]
    by_cases hneg : s.totalMovementMeasured + m < 0 <;> simp [hneg]
  · intro h1 h10; rw [h1]; dsimp only
    rw [if_neg (not_le.mpr h10)]
    simp
  · intro h1; rw [h1]; simp

/-- Claim C4 witness: from the calibrating state `c4State`, a window of 5
commanded and -1/4 measured crosses 10 units: the machine enters comparing,
`backwards` becomes true, the lifetime movement is normalized to 3/4, and
3/44 seeds both running ratios. -/
theorem C4_state_machine_witness :
    (c4State.magneticMonitorState = .idle →
       (CheckFilament c4State 5 (-1/4) false).2.magneticMonitorState = .calibrating) ∧
    (c4State.magneticMonitorState = .calibrating → c4State.totalExtrusionCommanded + 5 ≥ 10 →
       (CheckFilament c4State 5 (-1/4) false).2.magneticMonitorState = .comparing ∧
       (CheckFilament c4State 5 (-1/4) false).2.backwards =
         decide (c4State.totalMovementMeasured + -1/4 < 0) ∧
       (CheckFilament c4State 5 (-1/4) false).2.totalMovementMeasured =
         (if c4State.totalMovementMeasured + -1/4 < 0 then
            -(c4State.totalMovementMeasured + -1/4)
          else c4State.totalMovementMeasured + -1/4) ∧
       (CheckFilament c4State 5 (-1/4) false).2.minMovementRatio =
         (CheckFilament c4State 5 (-1/4) false).2.totalMovementMeasured /
           (c4State.totalExtrusionCommanded + 5) ∧
       (CheckFilament c4State 5 (-1/4) false).2.maxMovementRatio =
         (CheckFilament c4State 5 (-1/4) false).2.minMovementRatio) ∧
    (c4State.magneticMonitorState = .calibrating → c4State.totalExtrusionCommanded + 5 < 10 →
       (CheckFilament c4State 5 (-1/4) false).2.magneticMonitorState = .calibrating) ∧
    (c4State.magneticMonitorState = .comparing →
       (CheckFilament c4State 5 (-1/4) false).2.backwards = c4State.backwards) :=
  C4_state_machine c4State 5 (-1/4) false rfl

/-- Claim C8 counterexample: at `c8State` a position report performs a
successful, trusted sync transfer (3 units move into the this-segment pool),
yet the since-last-sync extrusion accumulator is left holding the residual
5 - 3 = 2, not zero. -/
theorem C8_counterexample :
    isPositionReport c8State 0 ∧ c8State.haveStartBitData = true ∧
    trustTest {} c8State ∧
    (handleOneItem {} c8State (.word 0)).extrusionCommandedThisSegment = 3 ∧
    (handleOneItem {} c8State (.word 0)).extrusionCommandedSinceLastSync = 2 := by
  refine ⟨by decide, rfl, by decide, ?_, ?_⟩ <;>
    norm_num [handleOneItem, handleCompletedWord, handlePositionReport, movementOf, angleChangeOf,
      u16sub, TypeMagnetAngleMask, TypeMagnetV1ErrorMask, c8State, trustTest, and_1023_eq_mod]

/-- Claim C8 as amended: immediately after a successful sync transfer the
since-last-sync movement accumulator is zero, and the since-last-sync
extrusion accumulator holds the residual (its prior value minus the amount
captured at the candidate start bit); it is zero exactly when no further
extrusion was commanded after the candidate was captured. -/
theorem C8_amended_residual (env : PollEnv) (s : MonitorState) (val : Nat)
    (hp : isPositionReport s val) (hb : s.haveStartBitData = true) (ht : trustTest env s) :
    (handleOneItem env s (.word val)).movementMeasuredSinceLastSync = 0 ∧
    (handleOneItem env s (.word val)).extrusionCommandedSinceLastSync =
      s.extrusionCommandedSinceLastSync - s.extrusionCommandedAtCandidateStartBit ∧
    ((handleOneItem env s (.word val)).extrusionCommandedSinceLastSync = 0 ↔
      s.extrusionCommandedSinceLastSync = s.extrusionCommandedAtCandidateStartBit) := by
  have h' : (handleCompletedWord s val).1 = true := hp
  have h2 := handleCompletedWord_pos s val h'
  unfold handleOneItem
  simp only [h', h2, if_true]
  unfold handlePositionReport
  dsimp only
  rw [if_pos hb]
  split_ifs with htr
  · simp [sub_eq_zero, eq_comm]
  · exact absurd (by simpa [trustTest] using ht) htr

/-- Claim C1 counterexample: at `c1State` no valid word was ever decoded and
a forced comparison window is due (pending extrusion 1+9 ≥ 3×3, more than
500 ms since the last report, nothing being received), yet the check returns
sensor-error, not no-data-received: the sensor-error check overrides the
no-data check, contrary to the claimed priority order. -/
theorem C1_counterexample :
    c1State.dataReceived = false ∧
    c1State.sensorError = true ∧
    c1State.comparisonEnabled = true ∧
    c1State.extrusionCommandedThisSegment + (c1State.extrusionCommandedSinceLastSync + 0) ≥
      c1State.minimumExtrusionCheckLength * 3 ∧
    u32sub c1Env.now c1State.lastMeasurementTime > 500 ∧
    c1Env.isReceiving = false ∧
    (Check c1Env c1State false false 0 0).1 = FilamentSensorStatus.sensorError := by
  refine ⟨rfl, rfl, rfl, ?_, by decide, rfl, ?_⟩ <;>
    norm_num [Check, HandleIncomingData, u32sub, c1State, c1Env]

/-- Claim C1 as amended: with comparison enabled, the priority order the code
implements is sensor-error > no-filament > no-data-received > ratio fault:
an active sensor-error code always wins (even when no valid word was ever
decoded), then the switch-open bit, and only within a completed comparison
window does no-data-received override the ratio check. -/
theorem C1_amended_priority (env : CheckEnv) (s : MonitorState) (ip : Bool) (im : Nat)
    (fc : ℚ) (hi : env.items = []) (hc : s.comparisonEnabled = true) :
    (s.sensorError = true → (Check env s ip false im fc).1 = .sensorError) ∧
    (s.sensorError = false → s.sensorValue &&& s.switchOpenMask ≠ 0 →
       (Check env s ip false im fc).1 = .noFilament) ∧
    (s.sensorError = false → s.sensorValue &&& s.switchOpenMask = 0 →
       s.extrusionCommandedThisSegment ≥ s.minimumExtrusionCheckLength →
       s.dataReceived = false →
       (Check env s ip false im fc).1 = .noDataReceived) ∧
    (s.sensorError = false → s.sensorValue &&& s.switchOpenMask = 0 →
       s.extrusionCommandedThisSegment ≥ s.minimumExtrusionCheckLength →
       s.dataReceived = true →
       (Check env s ip false im fc).1 =
         (CheckFilament
           { s with extrusionCommandedSinceLastSync := s.extrusionCommandedSinceLastSync + fc }
           s.extrusionCommandedThisSegment s.movementMeasuredThisSegment false).1) := by
  unfold Check
  rw [hi]
  simp only [HandleIncomingData, List.foldl_nil]
  refine ⟨fun h1 => ?_, fun h1 h2 => ?_, fun h1 h2 h3 h4 => ?_, fun h1 h2 h3 h4 => ?_⟩
  · simp [h1, hc]
  · simp [h1, h2, hc]
  · simp [h1, h2, h3, hc, CheckFilament, h4]
  · simp [h1, h2, h3, hc, h4]

/-- Claim C1 amended witness: at `c1State` (active sensor error, no data ever
received) the check returns sensor-error. -/
theorem C1_amended_priority_witness :
    (c1State.sensorError = true → (Check c1Env c1State false false 0 0).1 = .sensorError) ∧
    (c1State.sensorError = false → c1State.sensorValue &&& c1State.switchOpenMask ≠ 0 →
       (Check c1Env c1State false false 0 0).1 = .noFilament) ∧
    (c1State.sensorError = false → c1State.sensorValue &&& c1State.switchOpenMask = 0 →
       c1State.extrusionCommandedThisSegment ≥ c1State.minimumExtrusionCheckLength →
       c1State.dataReceived = false →
       (Check c1Env c1State false false 0 0).1 = .noDataReceived) ∧
    (c1State.sensorError = false → c1State.sensorValue &&& c1State.switchOpenMask = 0 →
       c1State.extrusionCommandedThisSegment ≥ c1State.minimumExtrusionCheckLength →
       c1State.dataReceived = true →
       (Check c1Env c1State false false 0 0).1 =
         (CheckFilament
           { c1State with extrusionCommandedSinceLastSync :=
               c1State.extrusionCommandedSinceLastSync + 0 }
           c1State.extrusionCommandedThisSegment c1State.movementMeasuredThisSegment
           false).1) :=
  C1_amended_priority c1Env c1State false 0 0 rfl rfl

/-- Claim C5 counterexample: `c5State` meets every stated overdue condition
(this-segment extrusion 1 below the check length 3, pending total 1 + 9 at
least 3 × 3, more than 500 ms since the last report, no reception), yet
because a sensor error is active no forced comparison happens and the
accumulators are not zeroed. -/
theorem C5_counterexample :
    c5State.extrusionCommandedThisSegment < c5State.minimumExtrusionCheckLength ∧
    c5State.extrusionCommandedThisSegment + (c5State.extrusionCommandedSinceLastSync + 0) ≥
      c5State.minimumExtrusionCheckLength * 3 ∧
    u32sub c1Env.now c5State.lastMeasurementTime > 500 ∧
    c1Env.isReceiving = false ∧
    (Check c1Env c5State false false 0 0).2.extrusionCommandedSinceLastSync = 9 ∧
    (Check c1Env c5State false false 0 0).1 = FilamentSensorStatus.sensorError := by
  refine ⟨by decide, ?_, by decide, rfl, ?_, ?_⟩ <;>
    norm_num [Check, HandleIncomingData, u32sub, c5State, c1Env]

/-- Claim C5 as amended: the overdue forced comparison additionally requires
that no sensor error is active and the switch-open bit is clear (the two
higher-priority branches of the check); under those conditions the forced
comparison runs on the combined commanded and measured amounts and all four
accumulators are zero afterwards. -/
theorem C5_amended_overdue (env : CheckEnv) (s : MonitorState) (ip : Bool) (im : Nat)
    (fc : ℚ) (hi : env.items = [])
    (hse : s.sensorError = false)
    (hsw : s.sensorValue &&& s.switchOpenMask = 0)
    (hlt : s.extrusionCommandedThisSegment < s.minimumExtrusionCheckLength)
    (hge : s.extrusionCommandedThisSegment + (s.extrusionCommandedSinceLastSync + fc) ≥
             s.minimumExtrusionCheckLength * 3)
    (ht : u32sub env.now s.lastMeasurementTime > 500)
    (hr : env.isReceiving = false) :
    (Check env s ip false im fc).2.extrusionCommandedThisSegment = 0 ∧
    (Check env s ip false im fc).2.extrusionCommandedSinceLastSync = 0 ∧
    (Check env s ip false im fc).2.movementMeasuredThisSegment = 0 ∧
    (Check env s ip false im fc).2.movementMeasuredSinceLastSync = 0 ∧
    (Check env s ip false im fc).1 =
      (if s.comparisonEnabled then
        (CheckFilament
          { s with extrusionCommandedSinceLastSync := s.extrusionCommandedSinceLastSync + fc }
          (s.extrusionCommandedThisSegment + (s.extrusionCommandedSinceLastSync + fc))
          (s.movementMeasuredThisSegment + s.movementMeasuredSinceLastSync) true).1
       else .ok) := by
  unfold Check
  rw [hi]
  simp only [HandleIncomingData, List.foldl_nil]
  simp [hse, hsw, not_le.mpr hlt, hge, ht, hr]

/-- Claim C5 amended witness: at `w5State` (no sensor error) the overdue
forced comparison zeroes all four accumulators. -/
theorem C5_amended_overdue_witness :
    (Check c1Env w5State false false 0 0).2.extrusionCommandedThisSegment = 0 ∧
    (Check c1Env w5State false false 0 0).2.extrusionCommandedSinceLastSync = 0 ∧
    (Check c1Env w5State false false 0 0).2.movementMeasuredThisSegment = 0 ∧
    (Check c1Env w5State false false 0 0).2.movementMeasuredSinceLastSync = 0 ∧
    (Check c1Env w5State false false 0 0).1 =
      (if w5State.comparisonEnabled then
        (CheckFilament
          { w5State with extrusionCommandedSinceLastSync :=
              w5State.extrusionCommandedSinceLastSync + 0 }
          (w5State.extrusionCommandedThisSegment +
            (w5State.extrusionCommandedSinceLastSync + 0))
          (w5State.movementMeasuredThisSegment + w5State.movementMeasuredSinceLastSync) true).1
       else .ok) :=
  C5_amended_overdue c1Env w5State false 0 0 rfl rfl rfl (by decide)
    (by norm_num [w5State]) (by decide) rfl

/-- Claim C8 amended witness: at `c8State` the residual is 2 and the movement
accumulator is zero after the transfer. -/
theorem C8_amended_residual_witness :
    (handleOneItem {} c8State (.word 0)).movementMeasuredSinceLastSync = 0 ∧
    (handleOneItem {} c8State (.word 0)).extrusionCommandedSinceLastSync =
      c8State.extrusionCommandedSinceLastSync - c8State.extrusionCommandedAtCandidateStartBit ∧
    ((handleOneItem {} c8State (.word 0)).extrusionCommandedSinceLastSync = 0 ↔
      c8State.extrusionCommandedSinceLastSync = c8State.extrusionCommandedAtCandidateStartBit) :=
  C8_amended_residual {} c8State 0 (by decide) rfl (by decide)

/-- Claim C6 counterexample: in the comparing state `c6State` (measured
sensitivity 100/2 = 50, configured nominal sensitivity 20) a window of 10
commanded and 1/2 measured gets status ok from the code — which scales the
window ratio by the configured `mmPerRev` — whereas scaling by the measured
sensitivity as the claim states would give too-much-movement. -/
theorem C6_counterexample :
    c6State.magneticMonitorState = MagneticMonitorState.comparing ∧
    c6State.comparisonEnabled = true ∧
    c6State.dataReceived = true ∧
    (CheckFilament c6State 10 (1/2) false).1 = FilamentSensorStatus.ok ∧
    comparingFaultMeasuredSensitivity c6State 10 (1/2) =
      FilamentSensorStatus.tooMuchMovement := by
  refine ⟨rfl, rfl, rfl, ?_, ?_⟩ <;>
    norm_num [CheckFilament, comparingFaultMeasuredSensitivity, c6State]

/-- Claim C6 as amended: the fault decision scales the window ratio by the
configured nominal sensitivity `mmPerRev` in the comparing state just as in
the window that completes calibration; the measured sensitivity is not used
in the fault decision. -/
theorem C6_amended_nominal_scaling (s : MonitorState) (a m : ℚ) (o : Bool)
    (hd : s.dataReceived = true) (hc : s.comparisonEnabled = true) :
    (s.magneticMonitorState = MagneticMonitorState.comparing →
       (CheckFilament s a m o).1 =
         (if (if s.backwards then -m else m) / a * s.mmPerRev < s.minMovementAllowed then
            FilamentSensorStatus.tooLittleMovement
          else if (if s.backwards then -m else m) / a * s.mmPerRev > s.maxMovementAllowed then
            FilamentSensorStatus.tooMuchMovement
          else FilamentSensorStatus.ok)) ∧
    (s.magneticMonitorState = MagneticMonitorState.calibrating →
       s.totalExtrusionCommanded + a ≥ 10 →
       (CheckFilament s a m o).1 =
         (if (if s.totalMovementMeasured + m < 0 then -(s.totalMovementMeasured + m)
              else s.totalMovementMeasured + m) / (s.totalExtrusionCommanded + a) * s.mmPerRev <
              s.minMovementAllowed then
            FilamentSensorStatus.tooLittleMovement
          else if (if s.totalMovementMeasured + m < 0 then -(s.totalMovementMeasured + m)
                   else s.totalMovementMeasured + m) / (s.totalExtrusionCommanded + a) *
                   s.mmPerRev > s.maxMovementAllowed then
            FilamentSensorStatus.tooMuchMovement
          else FilamentSensorStatus.ok)) := by
  unfold CheckFilament
  simp only [hd]
  constructor
  · intro h1; rw [h1]; dsimp only
    simp [hc]
  · intro h1 h10; rw [h1]; dsimp only
    rw [if_pos h10]
    by_cases hneg : s.totalMovementMeasured + m < 0 <;> simp [hneg, hc]

/-- Claim C6 amended witness: at `c6State` with a window of 10 commanded and
1/2 measured, the status equals the nominal-sensitivity comparison (ok). -/
theorem C6_amended_nominal_scaling_witness :
    (c6State.magneticMonitorState = MagneticMonitorState.comparing →
       (CheckFilament c6State 10 (1/2) false).1 =
         (if (if c6State.backwards then -(1/2) else (1/2)) / 10 * c6State.mmPerRev <
              c6State.minMovementAllowed then
            FilamentSensorStatus.tooLittleMovement
          else if (if c6State.backwards then -(1/2) else (1/2)) / 10 * c6State.mmPerRev >
              c6State.maxMovementAllowed then
            FilamentSensorStatus.tooMuchMovement
          else FilamentSensorStatus.ok)) ∧
    (c6State.magneticMonitorState = MagneticMonitorState.calibrating →
       c6State.totalExtrusionCommanded + 10 ≥ 10 →
       (CheckFilament c6State 10 (1/2) false).1 =
         (if (if c6State.totalMovementMeasured + 1/2 < 0 then
                -(c6State.totalMovementMeasured + 1/2)
              else c6State.totalMovementMeasured + 1/2) /
              (c6State.totalExtrusionCommanded + 10) * c6State.mmPerRev <
              c6State.minMovementAllowed then
            FilamentSensorStatus.tooLittleMovement
          else if (if c6State.totalMovementMeasured + 1/2 < 0 then
                     -(c6State.totalMovementMeasured + 1/2)
                   else c6State.totalMovementMeasured + 1/2) /
                   (c6State.totalExtrusionCommanded + 10) * c6State.mmPerRev >
              c6State.maxMovementAllowed then
            FilamentSensorStatus.tooMuchMovement
          else FilamentSensorStatus.ok)) :=
  C6_amended_nominal_scaling c6State 10 (1/2) false rfl rfl

/-- Claim C7 counterexample: in a state whose negotiated version is 5, the
valid version-announcement word `0x6000` (even parity, info subtype version,
low byte 0) overwrites the stored version with 0 — the version decreased. -/
theorem C7_counterexample :
    c7State.version = 5 ∧
    parityFold 0x6000 &&& 1 = 0 ∧
    0x6000 &&& TypeMagnetV2MessageTypeMask = TypeMagnetV2MessageTypeInfo ∧
    0x6000 &&& TypeMagnetV2InfoTypeMask = TypeMagnetV2InfoTypeVersion ∧
    (handleOneItem {} c7State (.word 0x6000)).version = 0 := by
  decide

/-- Claim C7 as amended: the version starts at 1 after initialization; under
version-1 decoding a decoded word leaves the version at 1 or raises it to at
least 2 (the low byte is accepted only when ≥ 2), so it never decreases; but
under version-2+ decoding a valid version-announcement word overwrites the
stored version with its low byte unconditionally, which can lower it. -/
theorem C7_amended_version_ratchet (env : PollEnv) (s t : MonitorState) (val : Nat) :
    (Init t).version = 1 ∧
    (s.version = 1 →
       (handleOneItem env s (.word val)).version = 1 ∨
       2 ≤ (handleOneItem env s (.word val)).version) ∧
    (s.version ≠ 1 → parityFold val &&& 1 = 0 →
       val &&& TypeMagnetV2MessageTypeMask = TypeMagnetV2MessageTypeInfo →
       val &&& TypeMagnetV2InfoTypeMask = TypeMagnetV2InfoTypeVersion →
       (handleOneItem env s (.word val)).version = val &&& 0x00FF) := by
  refine ⟨by simp [Init, Reset], fun h1 => ?_, fun h1 hp hm hsub => ?_⟩
  · have hv : (handleCompletedWord s val).2.version = 1 ∨
        2 ≤ (handleCompletedWord s val).2.version := by
      unfold handleCompletedWord
      rw [if_pos h1]
      by_cases hA : parityFold val &&& 1 = 0 ∧ val &&& 0x7F00 = 0x6000 ∧ val &&& 0x00FF ≥ 2
      · rw [if_pos hA]
        right
        simpa using hA.2.2
      · rw [if_neg hA]
        split_ifs with hB hC <;> (left; simpa using h1)
    unfold handleOneItem
    dsimp only
    by_cases hr : (handleCompletedWord s val).1 = true
    · rw [if_pos hr]
      simpa [handlePositionReport_version] using hv
    · rw [if_neg hr]
      simpa using hv
  · have hv : (handleCompletedWord s val).1 = false ∧
        (handleCompletedWord s val).2.version = val &&& 0x00FF := by
      unfold handleCompletedWord
      rw [if_neg h1, if_neg (by simp [hp]),
          if_neg (by rw [hm]; decide), if_neg (by rw [hm]; decide), if_pos hm, if_pos hsub]
      simp
    unfold handleOneItem
    dsimp only
    rw [if_neg (by simp [hv.1])]
    simpa using hv.2

end RotatingMagnet
